import Mathlib

/-!
Verification of the device-connection and firmware-mode-management subsystem
of greaseweazle (`scripts/greaseweazle/tools/util.py`).

The Python source is shallowly embedded: pyserial's `ListPortInfo` records
become the `Port` structure (optional attributes become `Option`), the pure
scoring function `score_port` becomes a Lean function (its three sequential
`score` reassignment blocks become the composition of three named stages),
the port enumeration loop of `find_port` becomes structural recursion over a
snapshot list, and the effectful open/reopen/mode-check protocol becomes a
function of an explicit environment describing what each enumeration attempt
and each channel open would observe.  Python exceptions become `Except` /
sum-typed results.
-/

set_option autoImplicit false

/-- A snapshot of one enumerated serial port (pyserial `ListPortInfo`).
Attributes that pyserial reports as `None` for non-USB ports are `Option`. -/
structure Port where
  device : String
  manufacturer : Option String
  product : Option String
  vid : Option Nat
  pid : Option Nat
  serial_number : Option String
  location : Option String
  deriving DecidableEq

/-- Python truthiness of an optional string: `None` and `""` are falsy. -/
def truthy (s : Option String) : Bool :=
  match s with
  | none => false
  | some v => !(v == "")

/-- Python `str.upper`, on the ASCII fragment relevant here (the serial
identifiers compared against the ASCII tag `"GW"`): uppercase every
character.  Expressed over the character list so that it evaluates by
kernel reduction. -/
def upper_str (s : String) : String :=
  String.mk (s.data.map Char.toUpper)

/-- Python `str.startswith`, expressed over the character lists. -/
def str_starts_with (s pre : String) : Bool :=
  List.isPrefixOf pre.data s.data

/-- `valid_ser_id(ser_id)`: `ser_id and ser_id.upper().startswith("GW")`. -/
def valid_ser_id (ser_id : Option String) : Bool :=
  match ser_id with
  | none => false
  | some s => !(s == "") && str_starts_with (upper_str s) ("GW")

/-- First block of `score_port`: the base identity score
(`if/elif` chain on manufacturer+product strings, vid/pid pairs,
and the vendor-id allow-list). -/
def base_score (x : Port) : Nat :=
  if x.manufacturer == some ("Keir Fraser") && x.product == some ("Greaseweazle") then
    20
  else if x.vid == some 0x1209 && x.pid == some 0x4d69 then
    20
  else if x.vid == some 0x1209 && x.pid == some 0x0001 then
    10
  else if x.vid == some 0x2E8A || x.vid == some 0x239A then
    5
  else
    0

/-- Second block of `score_port`: the serial-identifier rule, applied to the
running score (`if score > 0 and valid_ser_id(x.serial_number): ...`). -/
def serial_score (x : Port) (old_port : Option Port) (score : Nat) : Nat :=
  if 0 < score ∧ valid_ser_id x.serial_number then
    match old_port with
    | none => 20
    | some op =>
      if !(valid_ser_id op.serial_number) then 20
      else if x.serial_number == op.serial_number then 30
      else 0
  else score

/-- Third block of `score_port`: the bus-location filter
(`if old_port and old_port.location: ...`). -/
def location_filter (x : Port) (old_port : Option Port) (score : Nat) : Nat :=
  match old_port with
  | none => score
  | some op =>
    if truthy op.location then
      if !(truthy x.location) || x.location != op.location then 0 else score
    else score

/-- `score_port(x, old_port)`: the three sequential blocks of the source,
composed in source order. -/
def score_port (x : Port) (old_port : Option Port) : Nat :=
  location_filter x old_port (serial_score x old_port (base_score x))

/-- The location filter passes a candidate: either there is no previous
port, or the previous port carries no non-empty location, or the candidate
carries the very same location. -/
def loc_pass (x : Port) (old_port : Option Port) : Bool :=
  match old_port with
  | none => true
  | some op =>
    if truthy op.location then truthy x.location && x.location == op.location
    else true

/-- The (vendor, product) identification rows of the scoring table: the
reserved pair, the shared/legacy pair, or an allow-listed vendor id. -/
def recognized_vid_pid (x : Port) : Bool :=
  (x.vid == some 0x1209 && x.pid == some 0x4d69) ||
  (x.vid == some 0x1209 && x.pid == some 0x0001) ||
  (x.vid == some 0x2E8A || x.vid == some 0x239A)

def c1_cand : Port :=
  { device := "/dev/ttyACM1", manufacturer := none, product := none,
    vid := some 0x1209, pid := some 0x4d69,
    serial_number := some ("GW001"), location := none }

def c1_prev : Port :=
  { device := "/dev/ttyACM0", manufacturer := none, product := none,
    vid := some 0x1209, pid := some 0x4d69,
    serial_number := some ("GW001"), location := some ("1-1.4") }

/-- Python exceptions that can escape the embedded functions. -/
inductive PyErr where
  | serialException (msg : String)
  | typeError (msg : String)
  deriving DecidableEq

/-- The enumeration loop of `find_port`, carrying `(best_score, best_port)`.
Each iteration first computes the candidate's score, then builds the debug
log string `"%s (%04X / %04X) with score of %d" % (x, x.vid, x.pid, score)`:
the `%04X` conversions are evaluated eagerly and raise `TypeError` when
`x.vid` or `x.pid` is `None` (pyserial reports `None` for every non-USB
serial port); otherwise the best candidate is replaced exactly when the new
score is strictly greater. -/
def find_port_go (old : Option Port) :
    List Port → Nat → Option Port → Except PyErr (Option Port)
  | [], _, bp => Except.ok bp
  | x :: rest, bs, bp =>
    let score := score_port x old
    if x.vid = none ∨ x.pid = none then
      Except.error
        (PyErr.typeError ("%X format: an integer is required, not NoneType"))
    else if score > bs then
      find_port_go old rest score (some x)
    else
      find_port_go old rest bs bp

/-- `find_port(old_port)` over an explicit enumeration snapshot: returns the
device path of the best-scoring port, raises `SerialException` when no port
scored above 0, and propagates the `TypeError` from the debug formatting. -/
def find_port (ports : List Port) (old_port : Option Port) :
    Except PyErr String :=
  match find_port_go old_port ports 0 none with
  | Except.error e => Except.error e
  | Except.ok (some p) => Except.ok p.device
  | Except.ok none =>
    Except.error (PyErr.serialException ("Cannot find the Greaseweazle device"))

/-- `port_info(devname)`: first enumerated port with the given device path. -/
def port_info (ports : List Port) (devname : String) : Option Port :=
  ports.find? (fun x => x.device == devname)

/-- Modelled from the spec: the attributes a `DeviceSession` samples from the
device at open time (the `greaseweazle.usb.Unit` constructor is outside
`src/`; §3 and §6 of the spec list the queried attributes), together with the
book-keeping fields `util.py` itself assigns (`jumperless_update`,
`can_mode_switch`, `port_info`). -/
structure USB.Unit where
  update_mode : Bool
  update_jumpered : Bool
  update_needed : Bool
  hw_model : Nat
  hw_submodel : Nat
  major : Nat
  minor : Nat
  jumperless_update : Bool
  can_mode_switch : Bool
  port_info : Option Port
  deriving DecidableEq

/-- What one iteration of the reopen retry loop would observe: the
enumeration snapshot `comports()` would return, whether
`serial.Serial(devicename)` would succeed, and the session attributes
`USB.Unit(new_ser)` would sample from the device behind a path. -/
structure Attempt where
  snap : List Port
  open_ok : String → Bool
  unit_at : String → USB.Unit

/-- Outcome of `usb.switch_fw_mode(...)`: success, or one of the two
exception classes the source catches (`serial.SerialException` on Mac and
Linux, `struct.error` from the short read on Win10 pyserial). -/
inductive SwitchOutcome where
  | ok
  | serialException
  | structError

/-- Result of one iteration body of the reopen retry loop. -/
inductive AttemptOutcome where
  | opened (u : USB.Unit)
  | noDevice
  | pyFail (e : PyErr)
  deriving DecidableEq

/-- One iteration body of the retry loop in `usb_reopen`: locate a port
anchored on the previous session's `port_info` and open it.  A
`SerialException` from `find_port` or from `serial.Serial` is caught
(`noDevice`); the `TypeError` that `find_port` can raise is not caught by
`except serial.SerialException` and aborts the loop (`pyFail`). -/
def attempt_open (anchor : Option Port) (a : Attempt) : AttemptOutcome :=
  match find_port a.snap anchor with
  | Except.error (PyErr.serialException _) => AttemptOutcome.noDevice
  | Except.error (PyErr.typeError m) => AttemptOutcome.pyFail (PyErr.typeError m)
  | Except.ok devicename =>
    if a.open_ok devicename then
      AttemptOutcome.opened
        { a.unit_at devicename with port_info := port_info a.snap devicename }
    else AttemptOutcome.noDevice

/-- The `for i in range(10)` retry loop of `usb_reopen`, over the list of
what the successive attempts would observe (`time.sleep` has no observable
effect in the model).  On the first successful open the new session is
returned with `jumperless_update` and `can_mode_switch` copied over from the
old session; when the list is exhausted, `SerialException` is raised. -/
def usb_reopen_loop (usb : USB.Unit) : List Attempt → Except PyErr USB.Unit
  | [] =>
    Except.error (PyErr.serialException ("Could not reopen port after mode switch"))
  | a :: rest =>
    match attempt_open usb.port_info a with
    | AttemptOutcome.noDevice => usb_reopen_loop usb rest
    | AttemptOutcome.pyFail e => Except.error e
    | AttemptOutcome.opened nu =>
      Except.ok { nu with jumperless_update := usb.jumperless_update,
                          can_mode_switch := usb.can_mode_switch }

/-- What `usb_reopen` did: the argument of the mode-change command, whether
the old channel was closed, and the result of the retry loop. -/
structure ReopenResult where
  mode_sent : Nat
  closed : Bool
  result : Except PyErr USB.Unit

/-- `usb_reopen(usb, is_update)`: send the mode-change command
(`mode = {False: 1, True: 0}`), swallowing a `SerialException` or
`struct.error` from it; close the channel unconditionally; run the retry
loop over (at most) the first 10 attempts the environment describes. -/
def usb_reopen (usb : USB.Unit) (is_update : Bool) (sw : SwitchOutcome)
    (env : List Attempt) : ReopenResult :=
  let m : Nat := if is_update then 0 else 1
  match sw with
  | SwitchOutcome.ok =>
    { mode_sent := m, closed := true,
      result := usb_reopen_loop usb (List.take 10 env) }
  | SwitchOutcome.serialException =>
    { mode_sent := m, closed := true,
      result := usb_reopen_loop usb (List.take 10 env) }
  | SwitchOutcome.structError =>
    { mode_sent := m, closed := true,
      result := usb_reopen_loop usb (List.take 10 env) }

/-- How a call of `usb_mode_check` (or `usb_open`) ends.  `exitFail` covers
the paths that print a diagnostic and call `sys.exit(1)`, and — modelled
from the spec, §4.5/§7: `error.check` of module `greaseweazle.error` is
outside `src/`, and its failure is described as a fatal, terminal report —
the failing `error.check` as well.  `raised` is an uncaught exception. -/
inductive CheckResult where
  | ok (u : USB.Unit)
  | exitFail (msg : String)
  | raised (e : PyErr)
  deriving DecidableEq

/-- `usb_mode_check(usb, is_update)`: the mode-check state machine. -/
def usb_mode_check (usb : USB.Unit) (is_update : Bool) (sw : SwitchOutcome)
    (env : List Attempt) : CheckResult :=
  if usb.update_mode && !is_update then
    if usb.can_mode_switch then
      match (usb_reopen usb is_update sw env).result with
      | Except.error e => CheckResult.raised e
      | Except.ok u2 =>
        if !u2.update_mode then CheckResult.ok u2
        else CheckResult.exitFail ("ERROR: Greaseweazle is in Firmware Update Mode")
    else CheckResult.exitFail ("ERROR: Greaseweazle is in Firmware Update Mode")
  else if is_update && !usb.update_mode then
    if usb.can_mode_switch then
      match (usb_reopen usb is_update sw env).result with
      | Except.error e => CheckResult.raised e
      | Except.ok u2 =>
        if u2.update_mode then CheckResult.ok u2
        else
          CheckResult.exitFail
            ("Greaseweazle did not change to Firmware Update Mode as requested.")
    else CheckResult.exitFail ("ERROR: Greaseweazle is not in Firmware Update Mode")
  else if !usb.update_mode && usb.update_needed then
    CheckResult.exitFail ("ERROR: Greaseweazle firmware is unsupported")
  else CheckResult.ok usb

/-- The host environment `usb_open` runs in: `platform.system()` and
`platform.release()`, the enumeration snapshot, whether `serial.Serial` on a
path would succeed, and the session attributes the device behind a path
would report. -/
structure Host where
  system : String
  release : String
  ports : List Port
  open_ok : String → Bool
  unit_at : String → USB.Unit

/-- `usb_open(devicename, is_update, mode_check)`: locate a port when no
path was supplied, open the session, derive `jumperless_update` (the
hardware pair `(hw_model, hw_submodel) != (1, 0)` and the host is not
Windows 7) and `can_mode_switch`, then optionally run the mode check. -/
def usb_open (host : Host) (devicename : Option String) (is_update : Bool)
    (mode_check : Bool) (sw : SwitchOutcome) (env : List Attempt) :
    CheckResult :=
  match (match devicename with
         | none => find_port host.ports none
         | some d => Except.ok d) with
  | Except.error e => CheckResult.raised e
  | Except.ok dev =>
    if host.open_ok dev then
      let u0 := host.unit_at dev
      let is_win7 := host.system == ("Windows") && host.release == ("7")
      let ju := !(u0.hw_model == 1 && u0.hw_submodel == 0) && !is_win7
      let u : USB.Unit :=
        { u0 with port_info := port_info host.ports dev,
                  jumperless_update := ju,
                  can_mode_switch := ju && !(u0.update_mode && u0.update_jumpered) }
      if mode_check then usb_mode_check u is_update sw env else CheckResult.ok u
    else CheckResult.raised (PyErr.serialException ("could not open port"))

/-- A legacy motherboard UART as pyserial reports it: no USB identity at
all (`vid`, `pid`, `serial_number`, `location` are all `None`). -/
def tty_legacy : Port :=
  { device := "/dev/ttyS0", manufacturer := none, product := none,
    vid := none, pid := none, serial_number := none, location := none }

def gw_port0 : Port :=
  { device := "/dev/ttyACM0", manufacturer := none, product := none,
    vid := some 0x1209, pid := some 0x4d69,
    serial_number := some ("GW001"), location := some ("1-1.4") }

def gw_up_port : Port :=
  { device := "/dev/ttyACM2", manufacturer := none, product := none,
    vid := some 0x1209, pid := some 0x4d69,
    serial_number := some ("GW001"), location := some ("1-1.4") }

def gw_dn_port : Port :=
  { device := "/dev/ttyACM3", manufacturer := none, product := none,
    vid := some 0x1209, pid := some 0x4d69,
    serial_number := some ("GW001"), location := some ("1-1.4") }

/-- Attributes sampled from the device while it runs the update firmware. -/
def uq_up : USB.Unit :=
  { update_mode := true, update_jumpered := false, update_needed := false,
    hw_model := 7, hw_submodel := 0, major := 0, minor := 29,
    jumperless_update := false, can_mode_switch := false, port_info := none }

/-- Attributes sampled from the device while it runs normal firmware. -/
def uq_dn : USB.Unit := { uq_up with update_mode := false }

/-- An already-open session in normal mode, anchored on `gw_port0`. -/
def usb0 : USB.Unit :=
  { update_mode := false, update_jumpered := false, update_needed := false,
    hw_model := 7, hw_submodel := 0, major := 1, minor := 2,
    jumperless_update := true, can_mode_switch := true,
    port_info := some gw_port0 }

/-- An attempt during which the device has not yet re-enumerated. -/
def att_fail : Attempt :=
  { snap := [], open_ok := fun _ => false, unit_at := fun _ => uq_up }

/-- An attempt during which the device is back, in update mode, on a new
path but with its serial identifier and location unchanged. -/
def att_up : Attempt :=
  { snap := [gw_up_port], open_ok := fun _ => true, unit_at := fun _ => uq_up }

/-- An attempt during which the device is back in normal mode. -/
def att_dn : Attempt :=
  { snap := [gw_dn_port], open_ok := fun _ => true, unit_at := fun _ => uq_dn }

/-- The session the retry loop yields from `att_up`, after the flag
carry-over from `usb0`. -/
def u1c : USB.Unit :=
  { uq_up with port_info := some gw_up_port,
               jumperless_update := true, can_mode_switch := true }

/-- The session the retry loop yields from `att_dn`, after the flag
carry-over from `u1c`. -/
def u2c : USB.Unit :=
  { uq_dn with port_info := some gw_dn_port,
               jumperless_update := true, can_mode_switch := true }

/-- A session stuck in update mode with the jumper installed: no jumperless
switching, no mode switch available. -/
def u_stuck : USB.Unit :=
  { update_mode := true, update_jumpered := true, update_needed := false,
    hw_model := 1, hw_submodel := 0, major := 0, minor := 29,
    jumperless_update := false, can_mode_switch := false, port_info := none }

/-- A Linux host with one Greaseweazle attached, whose device reports
normal-mode firmware. -/
def host0 : Host :=
  { system := "Linux", release := "6.1", ports := [c1_cand],
    open_ok := fun _ => true,
    unit_at := fun _ =>
      { update_mode := false, update_jumpered := false, update_needed := false,
        hw_model := 7, hw_submodel := 0, major := 1, minor := 2,
        jumperless_update := false, can_mode_switch := false,
        port_info := none } }

/-- The session `usb_open host0 none _ false _ _` constructs. -/
def u9c : USB.Unit :=
  { update_mode := false, update_jumpered := false, update_needed := false,
    hw_model := 7, hw_submodel := 0, major := 1, minor := 2,
    jumperless_update := true, can_mode_switch := true,
    port_info := some c1_cand }

example :
    score_port
      { device := "COM3", manufacturer := some ("Keir Fraser"),
        product := some ("Greaseweazle"), vid := some 0x1209,
        pid := some 0x4d69, serial_number := none, location := none }
      none = 20 := by decide

example :
    valid_ser_id (some ("gw123")) = true := by decide

example :
    valid_ser_id (some ("XY123")) = false := by decide

theorem location_filter_eq_ite (x : Port) (old : Option Port) (s : Nat) :
    location_filter x old s = if loc_pass x old then s else 0 := by
  cases old with
  | none => rfl
  | some op =>
    simp only [location_filter, loc_pass]
    by_cases hl : truthy op.location
    · simp only [hl, if_true]
      cases ht : truthy x.location <;>
        cases he : x.location == op.location <;>
          simp [ht, he, bne]
    · simp [hl]

theorem location_filter_zero (x : Port) (old : Option Port) :
    location_filter x old 0 = 0 := by
  rw [location_filter_eq_ite]
  split <;> rfl

/-- C1 (counterexample): a candidate with positive base score and a valid
serial identifier equal to the previous port's valid serial identifier can
still score 0 rather than 20 or 30: the later bus-location filter zeroes the
score when the previous port carries a non-empty location that the candidate
does not match (here the candidate reports no location at all). -/
theorem score_port_serial_match_zeroed_by_location :
    0 < base_score c1_cand ∧
    valid_ser_id c1_cand.serial_number = true ∧
    valid_ser_id c1_prev.serial_number = true ∧
    c1_cand.serial_number = c1_prev.serial_number ∧
    score_port c1_cand (some c1_prev) = 0 := by decide

/-- C1 (amended): for a candidate with positive base score and a valid
serial identifier, provided the bus-location filter passes (no previous
port, previous port with no non-empty location, or matching locations):
no previous port or a previous port without a valid serial identifier
gives score 20; a previous port with an equal valid serial identifier
gives score 30; a previous port with a differing valid serial identifier
gives score 0 regardless of the base score (and regardless of location). -/
theorem score_port_serial_rule (x : Port) (old : Option Port)
    (hbase : 0 < base_score x)
    (hser : valid_ser_id x.serial_number = true) :
    ((old = none ∨ ∃ op, old = some op ∧ valid_ser_id op.serial_number = false) →
       loc_pass x old = true → score_port x old = 20) ∧
    (∀ op, old = some op → valid_ser_id op.serial_number = true →
       x.serial_number = op.serial_number → loc_pass x old = true →
       score_port x old = 30) ∧
    (∀ op, old = some op → valid_ser_id op.serial_number = true →
       x.serial_number ≠ op.serial_number → score_port x old = 0) := by
  refine ⟨?_, ?_, ?_⟩
  · rintro (rfl | ⟨op, rfl, hop⟩) hloc
    · simp [score_port, location_filter, serial_score, hbase, hser]
    · rw [score_port, location_filter_eq_ite, hloc, if_pos rfl]
      simp [serial_score, hbase, hser, hop]
  · rintro op rfl hop heq hloc
    rw [score_port, location_filter_eq_ite, hloc, if_pos rfl]
    simp [serial_score, hbase, hser, hop, heq]
  · rintro op rfl hop hne
    have hs : serial_score x (some op) (base_score x) = 0 := by
      have hbe : (x.serial_number == op.serial_number) = false := by
        simp [hne]
      simp [serial_score, hbase, hser, hop, hbe]
    rw [score_port, hs, location_filter_zero]

/-- C1 (witness for the amended theorem). -/
theorem score_port_serial_rule_witness :
    score_port c1_cand (some { c1_prev with location := none }) = 30 :=
  (score_port_serial_rule c1_cand (some { c1_prev with location := none })
      (by decide) (by decide)).2.1
    { c1_prev with location := none } rfl (by decide) (by decide) (by decide)

/-- C2: when the previous port carries a non-empty bus location, a candidate
without that very location (no location, or a different one) scores 0 no
matter what the identity and serial stages yielded; and when the locations
do match, the final score is exactly the score the serial stage produced,
so the location match by itself never increases the score. -/
theorem score_port_location_rule (x op : Port)
    (hloc : truthy op.location = true) :
    ((truthy x.location = false ∨ x.location ≠ op.location) →
       score_port x (some op) = 0) ∧
    (x.location = op.location →
       score_port x (some op) = serial_score x (some op) (base_score x)) := by
  constructor
  · intro h
    rw [score_port, location_filter_eq_ite]
    have : loc_pass x (some op) = false := by
      rcases h with h | h
      · simp [loc_pass, hloc, h]
      · have hbe : (x.location == op.location) = false := by simp [h]
        simp [loc_pass, hloc, hbe]
    rw [this]
    rfl
  · intro h
    rw [score_port, location_filter_eq_ite]
    have hx : truthy x.location = true := by rw [h]; exact hloc
    have hbe : (x.location == op.location) = true := by simp [h]
    have : loc_pass x (some op) = true := by simp [loc_pass, hloc, hx, hbe]
    rw [this, if_pos rfl]

/-- C2 (witness). -/
theorem score_port_location_rule_witness :
    score_port { c1_cand with location := some ("1-2") }
      (some c1_prev) = 0 :=
  (score_port_location_rule { c1_cand with location := some ("1-2") }
      c1_prev (by decide)).1 (Or.inr (by decide))

theorem score_port_none_eq_serial (x : Port) :
    score_port x none = serial_score x none (base_score x) := rfl

/-- C3: with no previous port, the base identity score follows the ordered,
overriding rule table (strings 20, reserved pair 20, shared pair 10,
allow-listed vendor 5, otherwise 0); consequently a candidate with a
recognized (vendor, product) pair has a final score between 5 and 20, and a
candidate matching none of the rules has final score 0. -/
theorem score_port_fresh_base_table (x : Port) :
    ((x.manufacturer == some ("Keir Fraser") &&
        x.product == some ("Greaseweazle")) = true → base_score x = 20) ∧
    ((x.manufacturer == some ("Keir Fraser") &&
        x.product == some ("Greaseweazle")) = false →
      (x.vid == some 0x1209 && x.pid == some 0x4d69) = true →
      base_score x = 20) ∧
    ((x.manufacturer == some ("Keir Fraser") &&
        x.product == some ("Greaseweazle")) = false →
      (x.vid == some 0x1209 && x.pid == some 0x4d69) = false →
      (x.vid == some 0x1209 && x.pid == some 0x0001) = true →
      base_score x = 10) ∧
    ((x.manufacturer == some ("Keir Fraser") &&
        x.product == some ("Greaseweazle")) = false →
      (x.vid == some 0x1209 && x.pid == some 0x4d69) = false →
      (x.vid == some 0x1209 && x.pid == some 0x0001) = false →
      (x.vid == some 0x2E8A || x.vid == some 0x239A) = true →
      base_score x = 5) ∧
    ((x.manufacturer == some ("Keir Fraser") &&
        x.product == some ("Greaseweazle")) = false →
      (x.vid == some 0x1209 && x.pid == some 0x4d69) = false →
      (x.vid == some 0x1209 && x.pid == some 0x0001) = false →
      (x.vid == some 0x2E8A || x.vid == some 0x239A) = false →
      base_score x = 0) ∧
    (recognized_vid_pid x = true →
      5 ≤ score_port x none ∧ score_port x none ≤ 20) ∧
    ((x.manufacturer == some ("Keir Fraser") &&
        x.product == some ("Greaseweazle")) = false →
      recognized_vid_pid x = false → score_port x none = 0) := by
  refine ⟨?_, ?_, ?_, ?_, ?_, ?_, ?_⟩
  · intro h1; simp [base_score, h1]
  · intro h1 h2; simp [base_score, h1, h2]
  · intro h1 h2 h3; simp [base_score, h1, h2, h3]
  · intro h1 h2 h3 h4; simp [base_score, h1, h2, h3, h4]
  · intro h1 h2 h3 h4; simp [base_score, h1, h2, h3, h4]
  · intro hrec
    have hb : 5 ≤ base_score x ∧ base_score x ≤ 20 := by
      unfold base_score
      split
      · exact ⟨by norm_num, le_refl 20⟩
      · split
        · exact ⟨by norm_num, le_refl 20⟩
        · split
          · exact ⟨by norm_num, by norm_num⟩
          · split
            · exact ⟨le_refl 5, by norm_num⟩
            · rename_i h1 h2 h3 h4
              rw [recognized_vid_pid] at hrec
              simp only [Bool.or_eq_true] at hrec
              rcases hrec with (h | h) | h
              · exact absurd h h2
              · exact absurd h h3
              · exact absurd (Bool.or_eq_true _ _ |>.mpr h) h4
    rw [score_port_none_eq_serial]
    unfold serial_score
    split
    · exact ⟨by norm_num, le_refl 20⟩
    · exact hb
  · intro h1 hrec
    have hsplit : ∀ a b c d : Bool, ((a || b) || (c || d)) = false →
        a = false ∧ b = false ∧ (c || d) = false := by decide
    rw [recognized_vid_pid] at hrec
    obtain ⟨ha, hc, hd⟩ := hsplit _ _ _ _ hrec
    have hb : base_score x = 0 := by
      simp [base_score, h1, ha, hc, hd]
    rw [score_port_none_eq_serial, hb]
    unfold serial_score
    rw [if_neg (fun h => Nat.lt_irrefl 0 h.1)]

/-- C3 (witness). -/
theorem score_port_fresh_base_table_witness :
    5 ≤ score_port
        { device := "/dev/ttyACM2", manufacturer := none, product := none,
          vid := some 0x2E8A, pid := some 0x000A, serial_number := none,
          location := none } none ∧
    score_port
        { device := "/dev/ttyACM2", manufacturer := none, product := none,
          vid := some 0x2E8A, pid := some 0x000A, serial_number := none,
          location := none } none ≤ 20 :=
  (score_port_fresh_base_table
      { device := "/dev/ttyACM2", manufacturer := none, product := none,
        vid := some 0x2E8A, pid := some 0x000A, serial_number := none,
        location := none }).2.2.2.2.2.1 (by decide)

/-- C10: a candidate whose own serial identifier is absent or not a valid
GW-prefixed identifier never triggers the serial rule: its score is the base
identity score subject only to the location filter — in particular, with no
previous port, or a previous port without a non-empty location, the base
score is kept unchanged even when the previous port carries a valid serial
identifier the candidate cannot match. -/
theorem score_port_invalid_serial_keeps_base (x : Port) (old : Option Port)
    (h : valid_ser_id x.serial_number = false) :
    score_port x old = location_filter x old (base_score x) ∧
    (old = none → score_port x old = base_score x) ∧
    (∀ op, old = some op → truthy op.location = false →
      score_port x old = base_score x) := by
  have hs : serial_score x old (base_score x) = base_score x := by
    unfold serial_score
    rw [if_neg (by simp [h])]
  refine ⟨by rw [score_port, hs], ?_, ?_⟩
  · rintro rfl
    rw [score_port, hs]; rfl
  · rintro op rfl hloc
    rw [score_port, hs, location_filter, if_neg (by simp [hloc])]

/-- C10 (witness): a candidate without any serial identifier, against a
previous port that carries a valid serial identifier (and no location),
keeps its full base score of 20. -/
theorem score_port_invalid_serial_keeps_base_witness :
    score_port
      { device := "/dev/ttyACM1", manufacturer := none, product := none,
        vid := some 0x1209, pid := some 0x4d69, serial_number := none,
        location := none }
      (some { c1_prev with location := none }) = 20 :=
  ((score_port_invalid_serial_keeps_base
      { device := "/dev/ttyACM1", manufacturer := none, product := none,
        vid := some 0x1209, pid := some 0x4d69, serial_number := none,
        location := none }
      (some { c1_prev with location := none }) (by decide)).2.2
    { c1_prev with location := none } rfl (by decide)).trans (by decide)

/-- C4 (the code at the failing input): an enumeration snapshot holding a
legacy motherboard UART (no vendor/product id) ahead of a perfectly good
Greaseweazle: the claimed behavior would return the Greaseweazle (the only
candidate scoring above 0, with score 20), but `find_port` instead raises
the `TypeError` produced by eagerly formatting `x.vid` with `%04X` in the
debug-logging expression — not the designed `SerialException`, and no port
is returned. -/
theorem find_port_typeerror_on_vidless_snapshot :
    score_port c1_cand none = 20 ∧
    score_port tty_legacy none = 0 ∧
    find_port [tty_legacy, c1_cand] none =
      Except.error
        (PyErr.typeError ("%X format: an integer is required, not NoneType")) :=
  ⟨by decide, by decide, by rfl⟩

theorem usb_reopen_result_eq (usb : USB.Unit) (iu : Bool) (sw : SwitchOutcome)
    (env : List Attempt) :
    (usb_reopen usb iu sw env).result = usb_reopen_loop usb (List.take 10 env) := by
  cases sw <;> rfl

theorem usb_reopen_loop_all_noDevice (usb : USB.Unit) (l : List Attempt)
    (h : ∀ a ∈ l, attempt_open usb.port_info a = AttemptOutcome.noDevice) :
    usb_reopen_loop usb l =
      Except.error (PyErr.serialException ("Could not reopen port after mode switch")) := by
  induction l with
  | nil => rfl
  | cons a rest ih =>
    have ha := h a (List.mem_cons_self a rest)
    simp only [usb_reopen_loop, ha]
    exact ih (fun b hb => h b (List.mem_cons_of_mem a hb))

theorem usb_reopen_loop_first_opened (usb : USB.Unit) :
    ∀ (pre : List Attempt) (a : Attempt) (post : List Attempt) (nu : USB.Unit),
    (∀ b ∈ pre, attempt_open usb.port_info b = AttemptOutcome.noDevice) →
    attempt_open usb.port_info a = AttemptOutcome.opened nu →
    usb_reopen_loop usb (pre ++ a :: post) =
      Except.ok { nu with jumperless_update := usb.jumperless_update,
                          can_mode_switch := usb.can_mode_switch } := by
  intro pre
  induction pre with
  | nil =>
    intro a post nu _ ha
    simp only [List.nil_append, usb_reopen_loop, ha]
  | cons b rest ih =>
    intro a post nu hpre ha
    have hb := hpre b (List.mem_cons_self b rest)
    simp only [List.cons_append, usb_reopen_loop, hb]
    exact ih a post nu (fun c hc => hpre c (List.mem_cons_of_mem b hc)) ha

theorem usb_reopen_loop_ok_flags (usb : USB.Unit) :
    ∀ (l : List Attempt) (u : USB.Unit), usb_reopen_loop usb l = Except.ok u →
    u.jumperless_update = usb.jumperless_update ∧
    u.can_mode_switch = usb.can_mode_switch := by
  intro l
  induction l with
  | nil => intro u h; exact absurd h (by simp [usb_reopen_loop])
  | cons a rest ih =>
    intro u h
    rw [usb_reopen_loop] at h
    cases hA : attempt_open usb.port_info a with
    | noDevice => rw [hA] at h; exact ih u h
    | pyFail e => rw [hA] at h; cases h
    | opened nu => rw [hA] at h; injection h with h2; subst h2; exact ⟨rfl, rfl⟩

/-- C6: the reopen retry loop runs at most 10 attempts (the result only
depends on the first 10 entries of the environment); an attempt on which
the locator finds no device or the channel open fails is swallowed and the
loop — always anchored on the just-closed session's `port_info` — moves on;
the first attempt that opens wins, its session getting the carried-over
flags; and when all attempts fail that way, `usb_reopen` raises the
mode-switch-timeout `SerialException`. -/
theorem usb_reopen_retry_loop (usb : USB.Unit) (iu : Bool) (sw : SwitchOutcome)
    (env : List Attempt) :
    ((usb_reopen usb iu sw env).result =
      (usb_reopen usb iu sw (List.take 10 env)).result) ∧
    ((∀ a ∈ List.take 10 env,
        attempt_open usb.port_info a = AttemptOutcome.noDevice) →
      (usb_reopen usb iu sw env).result =
        Except.error
          (PyErr.serialException ("Could not reopen port after mode switch"))) ∧
    (∀ (pre : List Attempt) (a : Attempt) (post : List Attempt) (nu : USB.Unit),
      List.take 10 env = pre ++ a :: post →
      (∀ b ∈ pre, attempt_open usb.port_info b = AttemptOutcome.noDevice) →
      attempt_open usb.port_info a = AttemptOutcome.opened nu →
      (usb_reopen usb iu sw env).result =
        Except.ok { nu with jumperless_update := usb.jumperless_update,
                            can_mode_switch := usb.can_mode_switch }) := by
  refine ⟨?_, ?_, ?_⟩
  · rw [usb_reopen_result_eq, usb_reopen_result_eq, List.take_take]
    norm_num
  · intro h
    rw [usb_reopen_result_eq]
    exact usb_reopen_loop_all_noDevice usb _ h
  · intro pre a post nu hsplit hpre ha
    rw [usb_reopen_result_eq, hsplit]
    exact usb_reopen_loop_first_opened usb pre a post nu hpre ha

/-- C6 (witness): the device misses the first attempt and reappears, in
update mode, on a new path with the same serial identifier and location, on
the second of the 10 allowed attempts. -/
theorem usb_reopen_retry_loop_witness :
    (usb_reopen usb0 true SwitchOutcome.serialException [att_fail, att_up]).result =
      Except.ok u1c :=
  (usb_reopen_retry_loop usb0 true SwitchOutcome.serialException
      [att_fail, att_up]).2.2
    [att_fail] att_up [] { uq_up with port_info := some gw_up_port } rfl
    (fun b hb => by obtain rfl := List.mem_singleton.mp hb; rfl)
    (by rfl)

/-- C7: whatever the mode-change command does — succeed, die with
`SerialException`, or die with `struct.error` — `usb_reopen` behaves
identically: the failure is swallowed, the old channel is closed
unconditionally, and the retry loop is entered. -/
theorem usb_reopen_swallows_switch_failure (usb : USB.Unit) (iu : Bool)
    (sw : SwitchOutcome) (env : List Attempt) :
    usb_reopen usb iu sw env = usb_reopen usb iu SwitchOutcome.ok env ∧
    (usb_reopen usb iu sw env).closed = true ∧
    (usb_reopen usb iu sw env).result = usb_reopen_loop usb (List.take 10 env) := by
  cases sw <;> exact ⟨rfl, rfl, rfl⟩

/-- C8: a Normal → UpdateMode → Normal round trip through `usb_reopen`
(both reopens succeeding within their retry budgets) ends in a session whose
`jumperless_update` and `can_mode_switch` equal the original session's,
because `usb_reopen` copies both flags from the old session onto every new
session it returns. -/
theorem usb_reopen_round_trip_flags (usb u1 u2 : USB.Unit)
    (sw1 sw2 : SwitchOutcome) (env1 env2 : List Attempt)
    (h1 : (usb_reopen usb true sw1 env1).result = Except.ok u1)
    (h2 : (usb_reopen u1 false sw2 env2).result = Except.ok u2) :
    u2.jumperless_update = usb.jumperless_update ∧
    u2.can_mode_switch = usb.can_mode_switch := by
  rw [usb_reopen_result_eq] at h1 h2
  have f1 := usb_reopen_loop_ok_flags usb _ u1 h1
  have f2 := usb_reopen_loop_ok_flags u1 _ u2 h2
  exact ⟨f2.1.trans f1.1, f2.2.trans f1.2⟩

/-- C8 (witness): the concrete round trip `usb0 → u1c → u2c`, the device
reappearing each time with the same serial identifier. -/
theorem usb_reopen_round_trip_flags_witness :
    u2c.jumperless_update = usb0.jumperless_update ∧
    u2c.can_mode_switch = usb0.can_mode_switch :=
  usb_reopen_round_trip_flags usb0 u1c u2c SwitchOutcome.ok SwitchOutcome.ok
    [att_fail, att_up] [att_dn] (by rfl) (by rfl)

/-- C5: the mode-check transition table.  A sensed mode that mismatches the
desired operation with `can_mode_switch` false, a mode switch that leaves
the mode mismatched, or a normal operation on a session flagged
`update_needed`: each prints a diagnostic and the process exits with status
1; an `ok` result never carries a session whose mode mismatches the
operation; and when mode and operation already agree (and `update_needed`
does not apply) the session is returned unchanged. -/
theorem usb_mode_check_table (usb : USB.Unit) (iu : Bool) (sw : SwitchOutcome)
    (env : List Attempt) :
    (usb.update_mode = true → iu = false → usb.can_mode_switch = false →
      usb_mode_check usb iu sw env =
        CheckResult.exitFail ("ERROR: Greaseweazle is in Firmware Update Mode")) ∧
    (usb.update_mode = false → iu = true → usb.can_mode_switch = false →
      usb_mode_check usb iu sw env =
        CheckResult.exitFail ("ERROR: Greaseweazle is not in Firmware Update Mode")) ∧
    (∀ u2, usb.update_mode = true → iu = false → usb.can_mode_switch = true →
      (usb_reopen usb iu sw env).result = Except.ok u2 → u2.update_mode = true →
      usb_mode_check usb iu sw env =
        CheckResult.exitFail ("ERROR: Greaseweazle is in Firmware Update Mode")) ∧
    (∀ u2, usb.update_mode = false → iu = true → usb.can_mode_switch = true →
      (usb_reopen usb iu sw env).result = Except.ok u2 → u2.update_mode = false →
      usb_mode_check usb iu sw env =
        CheckResult.exitFail
          ("Greaseweazle did not change to Firmware Update Mode as requested.")) ∧
    (usb.update_mode = false → iu = false → usb.update_needed = true →
      usb_mode_check usb iu sw env =
        CheckResult.exitFail ("ERROR: Greaseweazle firmware is unsupported")) ∧
    (∀ u, usb_mode_check usb iu sw env = CheckResult.ok u →
      u.update_mode = iu) ∧
    (usb.update_mode = iu → (iu = false → usb.update_needed = false) →
      usb_mode_check usb iu sw env = CheckResult.ok usb) := by
  refine ⟨?_, ?_, ?_, ?_, ?_, ?_, ?_⟩
  · intro h1 h2 h3
    subst h2
    simp [usb_mode_check, h1, h3]
  · intro h1 h2 h3
    subst h2
    simp [usb_mode_check, h1, h3]
  · intro u2 h1 h2 h3 h4 h5
    subst h2
    simp [usb_mode_check, h1, h3, h4, h5]
  · intro u2 h1 h2 h3 h4 h5
    subst h2
    simp [usb_mode_check, h1, h3, h4, h5]
  · intro h1 h2 h3
    subst h2
    simp [usb_mode_check, h1, h3]
  · intro u h
    rcases Bool.eq_false_or_eq_true iu with hiu | hiu <;> subst hiu
    · cases hum : usb.update_mode with
      | false =>
        cases hcms : usb.can_mode_switch with
        | false => simp [usb_mode_check, hum, hcms] at h
        | true =>
          cases hr : (usb_reopen usb true sw env).result with
          | error e => simp [usb_mode_check, hum, hcms, hr] at h
          | ok u2 =>
            cases hu2 : u2.update_mode with
            | false => simp [usb_mode_check, hum, hcms, hr, hu2] at h
            | true =>
              simp [usb_mode_check, hum, hcms, hr, hu2] at h
              subst h
              exact hu2
      | true =>
        simp [usb_mode_check, hum] at h
        subst h
        exact hum
    · cases hum : usb.update_mode with
      | false =>
        cases hun : usb.update_needed with
        | false =>
          simp [usb_mode_check, hum, hun] at h
          subst h
          exact hum
        | true => simp [usb_mode_check, hum, hun] at h
      | true =>
        cases hcms : usb.can_mode_switch with
        | false => simp [usb_mode_check, hum, hcms] at h
        | true =>
          cases hr : (usb_reopen usb false sw env).result with
          | error e => simp [usb_mode_check, hum, hcms, hr] at h
          | ok u2 =>
            cases hu2 : u2.update_mode with
            | false =>
              simp [usb_mode_check, hum, hcms, hr, hu2] at h
              subst h
              exact hu2
            | true => simp [usb_mode_check, hum, hcms, hr, hu2] at h
  · intro h1 h2
    cases hiu : iu
    · have hum : usb.update_mode = false := by rw [h1, hiu]
      have hun : usb.update_needed = false := h2 hiu
      simp [usb_mode_check, hum, hiu, hun]
    · have hum : usb.update_mode = true := by rw [h1, hiu]
      simp [usb_mode_check, hum, hiu]

/-- C5 (witness): a session in update mode with the jumper installed
(`can_mode_switch` false), asked to do a normal operation. -/
theorem usb_mode_check_table_witness :
    usb_mode_check u_stuck false SwitchOutcome.ok [] =
      CheckResult.exitFail ("ERROR: Greaseweazle is in Firmware Update Mode") :=
  (usb_mode_check_table u_stuck false SwitchOutcome.ok []).1 rfl rfl rfl

/-- C9: every session `usb_open` returns (before the optional mode check)
carries `jumperless_update` true exactly when the hardware pair
`(hw_model, hw_submodel)` is not the excluded `(1, 0)` and the host is not
the Windows-7 platform/release combination, and `can_mode_switch` true
exactly when `jumperless_update` holds and the device is not simultaneously
in update mode with the update jumper present. -/
theorem usb_open_capability_flags (host : Host) (dn : Option String)
    (iu : Bool) (sw : SwitchOutcome) (env : List Attempt) (u : USB.Unit)
    (h : usb_open host dn iu false sw env = CheckResult.ok u) :
    u.jumperless_update =
      (!(u.hw_model == 1 && u.hw_submodel == 0) &&
        !(host.system == ("Windows") && host.release == ("7"))) ∧
    u.can_mode_switch =
      (u.jumperless_update && !(u.update_mode && u.update_jumpered)) := by
  unfold usb_open at h
  split at h
  · exact absurd h (by simp)
  · rename_i dev
    split at h
    · simp only [] at h
      rw [if_neg Bool.false_ne_true] at h
      injection h with h2
      subst h2
      exact ⟨rfl, rfl⟩
    · exact absurd h (by simp)

/-- C9 (witness): opening on a Linux host whose device reports hardware
model 7.0 in normal mode yields `jumperless_update` and `can_mode_switch`
both true, matching the two defining formulas. -/
theorem usb_open_capability_flags_witness :
    u9c.jumperless_update =
      (!(u9c.hw_model == 1 && u9c.hw_submodel == 0) &&
        !(host0.system == ("Windows") && host0.release == ("7"))) ∧
    u9c.can_mode_switch =
      (u9c.jumperless_update && !(u9c.update_mode && u9c.update_jumpered)) :=
  usb_open_capability_flags host0 none false SwitchOutcome.ok [] u9c (by rfl)
